import Mathlib

/-!
Verification of the lifi-mcp outbound request execution layer: a shallow
embedding in Lean 4 of the validation helpers, the retrying HTTP client,
the token-bucket rate limiter, the chain-metadata cache and the
transaction execution handlers, with theorems settling the frozen claims.

Network calls are modelled by explicit oracle structures (one field per
RPC/HTTP primitive a handler may invoke); each handler additionally
returns a record of which primitives it invoked, so that temporal claims
(never broadcast, never signed, refreshed exactly once) become statements
about that record.
-/

namespace LifiMcp

/-! ## String and number helpers (mirroring Go stdlib behaviour used by the source) -/

/-- Decimal digit test, as Go's character classes for base-10 `SetString`. -/
def isDecDigit (c : Char) : Bool := c.isDigit

/-- Hex digit test (0-9a-fA-F), as Go's `isHex` / base-16 `SetString` digits. -/
def isHexDigit (c : Char) : Bool :=
  c.isDigit || ('a' ≤ c && c ≤ 'f') || ('A' ≤ c && c ≤ 'F')

def decDigitVal (c : Char) : Nat := c.toNat - 48

def hexDigitVal (c : Char) : Nat :=
  if c.isDigit then c.toNat - 48
  else if 'a' ≤ c && c ≤ 'f' then c.toNat - 87
  else c.toNat - 55

/-- Value of a non-empty all-valid digit string in the given base; `none`
otherwise.  Mirrors the digit scan of Go's `big.Int.SetString` (for bases
10 and 16 no underscores are accepted). -/
def parseDigits (valid : Char → Bool) (dval : Char → Nat) (base : Nat)
    (cs : List Char) : Option Nat :=
  if cs.isEmpty then none
  else if cs.all valid then some (cs.foldl (fun a c => a * base + dval c) 0)
  else none

/-- Go `big.Int.SetString(s, base)`: an optional leading sign followed by
one or more digits of the base; the whole string must be consumed. -/
def bigSetString (valid : Char → Bool) (dval : Char → Nat) (base : Nat)
    (s : String) : Option Int :=
  match s.data with
  | [] => none
  | c :: cs =>
    if c == '+' then (parseDigits valid dval base cs).map Int.ofNat
    else if c == '-' then (parseDigits valid dval base cs).map (fun n => -(n : Int))
    else (parseDigits valid dval base (c :: cs)).map Int.ofNat

/-- Go `big.Int.SetString(s, 10)`. -/
def setString10 (s : String) : Option Int := bigSetString isDecDigit decDigitVal 10 s

/-- Go `big.Int.SetString(s, 16)`. -/
def setString16 (s : String) : Option Int := bigSetString isHexDigit hexDigitVal 16 s

/-- Go `strings.HasPrefix(s, "0x")` (case-sensitive). -/
def has0x (s : String) : Bool :=
  match s.data with
  | '0' :: 'x' :: _ => true
  | _ => false

/-- Go `common.has0xPrefix`: "0x" or "0X". -/
def has0xAnyCase (s : String) : Bool :=
  match s.data with
  | '0' :: c :: _ => c == 'x' || c == 'X'
  | _ => false

/-- `s[2:]` for the strings the handlers slice after a 0x check. -/
def dropTwo (s : String) : String :=
  match s.data with
  | _ :: _ :: rest => String.mk rest
  | _ => ""

/-- The source's recurring pattern: strip a literal "0x" and parse base 16,
else parse base 10 (`strings.HasPrefix(v, "0x")` is case-sensitive). -/
def parseHexOrDec (v : String) : Option Int :=
  if has0x v then setString16 (dropTwo v) else setString10 v

/-- Go `strconv.ParseInt(s, base, 64)`: signed digits with an int64 range
check (out-of-range input is an error for the callers modelled here). -/
def parseInt64 (valid : Char → Bool) (dval : Char → Nat) (base : Nat)
    (s : String) : Option Int :=
  (bigSetString valid dval base s).bind fun v =>
    if v < -(2 ^ 63) || 2 ^ 63 - 1 < v then none else some v

/-- Go `strconv.Atoi` (64-bit int). -/
def atoi (s : String) : Option Int := parseInt64 isDecDigit decDigitVal 10 s

/-- Go `common.IsHexAddress`: optional 0x/0X, then exactly 40 hex digits. -/
def isHexAddress (s : String) : Bool :=
  let t := if has0xAnyCase s then dropTwo s else s
  t.length == 40 && t.data.all isHexDigit

/-- ASCII lower-casing; the source uses Go `strings.ToLower` on chain
names and hex addresses, which agrees with ASCII folding on that data. -/
def toLowerAscii (s : String) : String := String.mk (s.data.map Char.toLower)

/-- Go `strings.EqualFold`, restricted to ASCII folding (sufficient for
the hex addresses it is applied to in the source). -/
def equalFold (a b : String) : Bool := toLowerAscii a == toLowerAscii b

/-- Whether `pre` is an initial segment of `l`. -/
def listStarts (pre l : List Char) : Bool :=
  match pre, l with
  | [], _ => true
  | _ :: _, [] => false
  | p :: ps, x :: xs => p == x && listStarts ps xs

/-- Split at the first occurrence of `sep`: (text before, text after),
or `none` when `sep` does not occur. -/
def findSplit (sep : List Char) : List Char → Option (List Char × List Char)
  | [] => none
  | c :: rest =>
    if listStarts sep (c :: rest) then some ([], (c :: rest).drop sep.length)
    else
      match findSplit sep rest with
      | some (pre, post) => some (c :: pre, post)
      | none => none

/-- Substring test, via Go `strings.Contains` (for a non-empty separator). -/
def containsSub (s sub : String) : Bool := (findSplit sub.data s.data).isSome

/-- Go `strings.SplitN(s, sep, 2)[1]`: everything after the first
occurrence of `sep`, or `none` when `sep` does not occur. -/
def afterFirst (s sep : String) : Option String :=
  (findSplit sep.data s.data).map fun p => String.mk p.2

/-- Whether Go `hex.DecodeString` succeeds on the given string (even
length, hex digits only); the handlers only branch on success. -/
def hexDecodes (s : String) : Bool := s.length % 2 == 0 && s.data.all isHexDigit

/-- Go `strings.TrimSpace`, on ASCII whitespace (the only whitespace the
modelled provider error texts contain). -/
def trimSpace (s : String) : String :=
  String.mk (((s.data.dropWhile Char.isWhitespace).reverse.dropWhile
    Char.isWhitespace).reverse)

/-- The revert-reason extraction shared by the transaction handlers:
any text following "execution reverted:" (trimmed), else "Unknown reason". -/
def revertReasonOf (errText : String) : String :=
  if containsSub errText "execution reverted" then
    match afterFirst errText "execution reverted:" with
    | some rest => trimSpace rest
    | none => "Unknown reason"
  else "Unknown reason"

/-! ## validation.go -/

/-- `ZeroAddress` from validation.go. -/
def ZeroAddress : String := "0x0000000000000000000000000000000000000000"

/-- `MaxAmountDigits` from validation.go. -/
def MaxAmountDigits : Nat := 78

/-- A `ValidationError` renders as "field: message"; validators below
return that rendering directly. -/
def valErr (field msg : String) : Except String Unit :=
  .error (field ++ ": " ++ msg)

/-- `ValidateAddress` from validation.go. -/
def ValidateAddress (field address : String) : Except String Unit :=
  if address == "" then valErr field "address is required"
  else if !isHexAddress address then
    valErr field ("invalid address format: " ++ address)
  else .ok ()

/-- `ValidateRecipientAddress` from validation.go. -/
def ValidateRecipientAddress (field address : String) : Except String Unit :=
  match ValidateAddress field address with
  | .error e => .error e
  | .ok () =>
    if equalFold address ZeroAddress then
      valErr field
        "cannot send to zero address (burn address) - this would permanently destroy funds"
    else .ok ()

/-- `ValidateChainID` from validation.go (`strconv.ParseInt(chainID, 10, 64)`). -/
def ValidateChainID (field chainID : String) : Except String Unit :=
  if chainID == "" then valErr field "chain ID is required"
  else
    match atoi chainID with
    | none => valErr field ("invalid chain ID format (must be numeric): " ++ chainID)
    | some id =>
      if id ≤ 0 then valErr field "chain ID must be a positive integer"
      else .ok ()

/-- `ValidateAmount` from validation.go.  The length guard counts string
length before parsing, as Go `len` does (byte length; identical to
character count on the ASCII data this accepts). -/
def ValidateAmount (field amount : String) : Except String Unit :=
  if amount == "" then valErr field "amount is required"
  else if amount.length > MaxAmountDigits then
    valErr field "amount exceeds maximum allowed digits"
  else
    match setString10 amount with
    | none => valErr field ("invalid amount format: " ++ amount)
    | some v =>
      if v < 0 then valErr field "amount cannot be negative"
      else if v == 0 then valErr field "amount cannot be zero"
      else .ok ()

/-- `ValidateAmountAllowZero` from validation.go. -/
def ValidateAmountAllowZero (field amount : String) : Except String Unit :=
  if amount == "" then valErr field "amount is required"
  else if amount.length > MaxAmountDigits then
    valErr field "amount exceeds maximum allowed digits"
  else
    match setString10 amount with
    | none => valErr field ("invalid amount format: " ++ amount)
    | some v =>
      if v < 0 then valErr field "amount cannot be negative"
      else .ok ()

/-- `ValidateTokenAddress` from validation.go (zero address allowed). -/
def ValidateTokenAddress (field address : String) : Except String Unit :=
  if address == "" then valErr field "token address is required"
  else if !isHexAddress address then
    valErr field ("invalid token address format: " ++ address)
  else .ok ()

/-- Decimal parse standing in for Go `strconv.ParseFloat` in
`ValidateSlippage`: optional sign, digits, optional fractional part, as a
rational.  (Exponents, inf/nan and float rounding are not modelled; no
theorem below exercises a slippage string where they would matter.) -/
def parseDecimalRat (s : String) : Option ℚ :=
  let core (cs : List Char) (neg : Bool) : Option ℚ :=
    match cs.splitOn '.' with
    | [w] => (parseDigits isDecDigit decDigitVal 10 w).map fun n =>
        if neg then -(n : ℚ) else (n : ℚ)
    | [w, f] =>
      match parseDigits isDecDigit decDigitVal 10 (w ++ f) with
      | some n =>
        let q : ℚ := (n : ℚ) / ((10 : ℚ) ^ f.length)
        some (if neg then -q else q)
      | none => none
    | _ => none
  match s.data with
  | '+' :: rest => core rest false
  | '-' :: rest => core rest true
  | cs => core cs false

/-- `ValidateSlippage` from validation.go. -/
def ValidateSlippage (slippage : String) : Except String Unit :=
  if slippage == "" then .ok ()
  else
    match parseDecimalRat slippage with
    | none => valErr "slippage" ("invalid slippage format: " ++ slippage)
    | some v =>
      if v < 0 then valErr "slippage" "slippage cannot be negative"
      else if v > 1 then valErr "slippage" "slippage cannot exceed 1 (100%)"
      else .ok ()

/-- Whether a validator accepted. -/
def accepts (r : Except String Unit) : Bool :=
  match r with
  | .ok () => true
  | .error _ => false

/-! ### The claim C9 reference predicates

`amountDigitLiteral` renders the claim's words "base-10 non-negative
integer literal of at most 78 digits" read as a plain digit string;
`signedAmountLiteral`/`literalValue` describe the amended acceptance set
(an optional single leading sign is also accepted, with the 78-character
cap counting the sign). -/

def digitsVal (cs : List Char) : Nat :=
  cs.foldl (fun a c => a * 10 + decDigitVal c) 0

def amountDigitLiteral (s : String) : Bool :=
  !s.isEmpty && s.data.all isDecDigit && s.length ≤ 78 && digitsVal s.data > 0

/-- Optional leading + or - followed by one or more decimal digits. -/
def signedAmountLiteral (s : String) : Bool :=
  match s.data with
  | [] => false
  | c :: cs =>
    if c == '+' || c == '-' then !cs.isEmpty && cs.all isDecDigit
    else (c :: cs).all isDecDigit

/-- Signed value of such a literal. -/
def literalValue (s : String) : Int :=
  match s.data with
  | [] => 0
  | c :: cs =>
    if c == '+' then Int.ofNat (digitsVal cs)
    else if c == '-' then -Int.ofNat (digitsVal cs)
    else Int.ofNat (digitsVal (c :: cs))

/-! ## handlers.go (retry segment): doRequest / doWithRetry

One outbound attempt is an oracle value: a transport failure, a
body-read failure, or a status-line response.  `doRequest` classifies it
exactly as the source does (429 first, then 5xx, then other 4xx, else
the body); `doWithRetry` runs up to `maxRetries` retries beyond the
first attempt with one backoff sleep between consecutive attempts.
The rate limiter acquisition and context cancellation inside the loop
are modelled separately (`RateLimiter.acquire` below); backoff jitter is
real time and not modelled. -/

def maxRetries : Nat := 3

inductive Attempt where
  | netErr (e : String)
  | bodyErr (e : String)
  | resp (status : Nat) (retryAfter : Option String) (body : String)
deriving DecidableEq

/-- Structured rendering of the errors `doRequest` produces. -/
inductive ReqErr where
  | network (e : String)
  | readBody (e : String)
  | rateLimited (retryAfter : Option String)
  | httpFail (status : Nat) (body : String)
deriving DecidableEq

/-- `doRequest`: the classified outcome and whether it should be retried. -/
def doRequest (a : Attempt) : Except (ReqErr × Bool) String :=
  match a with
  | .netErr e => .error (.network e, true)
  | .bodyErr e => .error (.readBody e, true)
  | .resp status retryAfter body =>
    if status == 429 then .error (.rateLimited retryAfter, true)
    else if status ≥ 500 then .error (.httpFail status body, true)
    else if status ≥ 400 then .error (.httpFail status body, false)
    else .ok body

/-- The retry loop from attempt `i` with `remaining` retries left.
Returns (result, attempts made, backoff sleeps taken). -/
def retryFrom (env : Nat → Attempt) (i : Nat) : Nat → Except ReqErr String × Nat × Nat
  | 0 =>
    match doRequest (env i) with
    | .ok b => (.ok b, 1, 0)
    | .error (e, _) => (.error e, 1, 0)
  | remaining + 1 =>
    match doRequest (env i) with
    | .ok b => (.ok b, 1, 0)
    | .error (e, shouldRetry) =>
      if shouldRetry then
        let r := retryFrom env (i + 1) remaining
        (r.1, r.2.1 + 1, r.2.2 + 1)
      else (.error e, 1, 0)

/-- `doWithRetry` over a stream of per-attempt outcomes. -/
def doWithRetry (env : Nat → Attempt) : Except ReqErr String × Nat × Nat :=
  retryFrom env 0 maxRetries

/-! ## handlers.go: rateLimiter

Tokens are an `Int` so that non-negativity is a real statement.  The
acquire path is modelled with the entry time `now`, the post-wait time
`now2` (Go re-reads `time.Now()` after the timer fires) and a `cancel`
flag for context cancellation during the wait.  Go's monotonic clock
makes `now - lastRefill` non-negative, matching Nat subtraction. -/

structure RateLimiter where
  tokens : Int
  maxTokens : Int
  refillRate : Nat
  lastRefill : Nat
deriving DecidableEq

inductive AcqOutcome where
  | admitted
  | canceled
deriving DecidableEq

/-- The refill step at the top of `acquire` (`tokensToAdd` is the
elapsed time integer-divided by the refill rate; a positive value
refills up to `maxTokens` and restamps `lastRefill`). -/
def RateLimiter.refill (r : RateLimiter) (now : Nat) : RateLimiter :=
  if 0 < (now - r.lastRefill) / r.refillRate then
    { r with
      tokens := min (r.tokens + Int.ofNat ((now - r.lastRefill) / r.refillRate)) r.maxTokens,
      lastRefill := now }
  else r

/-- `rateLimiter.acquire`.  If a token is available after refill it is
consumed; otherwise the caller waits for the next token (then `tokens`
is set to 0 — the awaited token is consumed on arrival — and
`lastRefill` is re-stamped at the post-wait time `now2`), unless the
context is canceled first. -/
def RateLimiter.acquire (r : RateLimiter) (now now2 : Nat) (cancel : Bool) :
    RateLimiter × AcqOutcome :=
  if 0 < (r.refill now).tokens then
    ({ r.refill now with tokens := (r.refill now).tokens - 1 }, .admitted)
  else if cancel then (r.refill now, .canceled)
  else ({ r.refill now with tokens := 0, lastRefill := now2 }, .admitted)

/-! ## Chain metadata (part_009): refreshChainsCache, getNativeTokenInfo, resolveRpcUrl -/

structure TokenMeta where
  symbol : String
  decimals : Int
deriving DecidableEq

structure MetamaskMeta where
  chainName : String
  rpcUrls : List String
deriving DecidableEq

structure Chain where
  id : Int
  key : String
  name : String
  nativeToken : TokenMeta
  nativeCurrency : TokenMeta
  metamask : MetamaskMeta
deriving DecidableEq

structure CacheState where
  chains : List Chain
  initialized : Bool
deriving DecidableEq

/-- The upstream GET plus `json.Unmarshal`, as one oracle: transport
failure, parse failure, or a parsed chain directory. -/
inductive FetchResult where
  | getErr (e : String)
  | parseErr (e : String)
  | ok (chains : List Chain)
deriving DecidableEq

/-- Actions of one `refreshChainsCache` call, in order. -/
inductive CacheAct where
  | httpGet
  | lockW
  | setChains
  | setInit
  | unlockW
deriving DecidableEq

/-- `refreshChainsCache` (part_009): GET, parse, and only on full success
replace the cache and set the initialized flag inside one write-lock
section.  Returns (new cache state, result, action trace). -/
def refreshChainsCache (fr : FetchResult) (st : CacheState) :
    CacheState × Except String Unit × List CacheAct :=
  match fr with
  | .getErr e => (st, .error ("failed to fetch chains: " ++ e), [.httpGet])
  | .parseErr e => (st, .error ("failed to parse chain data: " ++ e), [.httpGet])
  | .ok chains =>
    ({ chains := chains, initialized := true }, .ok (),
      [.httpGet, .lockW, .setChains, .setInit, .unlockW])

/-- Go `int(chainID.Int64())`: wrap an integer into int64 range. -/
def toInt64 (n : Int) : Int := (n + 2 ^ 63) % 2 ^ 64 - 2 ^ 63

/-- First word of a Metamask chain name (`strings.Split(s, " ")[0]`). -/
def firstWord (s : String) : String :=
  String.mk (s.data.takeWhile (fun c => !(c == ' ')))

/-- The per-chain native-token extraction loop body of
`getNativeTokenInfo`: the first chain with the wanted id that offers a
nativeToken symbol, a nativeCurrency symbol, or a Metamask chain name
decides the result; a matching chain offering none of the three is
skipped, like the `continue` the Go loop falls through to. -/
def findNative (cid : Int) : List Chain → Option (String × Int)
  | [] => none
  | c :: rest =>
    if c.id == cid then
      if c.nativeToken.symbol != "" then some (c.nativeToken.symbol, c.nativeToken.decimals)
      else if c.nativeCurrency.symbol != "" then
        some (c.nativeCurrency.symbol, c.nativeCurrency.decimals)
      else if c.metamask.chainName != "" then some (firstWord c.metamask.chainName, 18)
      else findNative cid rest
    else findNative cid rest

/-- `getNativeTokenInfo` (part_009, Server method): initialize the cache
if needed, search, on a miss force one refresh and search once more.
Returns (result, final cache state, number of refreshes performed).
The single `FetchResult` oracle answers every refresh in the call. -/
def getNativeTokenInfo (fr : FetchResult) (st : CacheState) (chainID : Int) :
    Except String (String × Int) × CacheState × Nat :=
  let cid := toInt64 chainID
  let afterInit : CacheState × Except String Unit × Nat :=
    if st.initialized then (st, .ok (), 0)
    else
      let (st1, r, _) := refreshChainsCache fr st
      (st1, r, 1)
  match afterInit with
  | (_, .error e, n) => (.error e, st, n)
  | (st1, .ok (), n) =>
    match findNative cid st1.chains with
    | some v => (.ok v, st1, n)
    | none =>
      match refreshChainsCache fr st1 with
      | (_, .error e, _) => (.error e, st1, n + 1)
      | (st2, .ok (), _) =>
        match findNative cid st2.chains with
        | some v => (.ok v, st2, n + 1)
        | none =>
          (.error ("chain ID " ++ toString chainID ++ " not found in Li.Fi API"),
            st2, n + 1)

/-- The numeric-id search of `resolveRpcUrl` (first matching chain). -/
def findById (cid : Int) (cs : List Chain) : Option Chain :=
  cs.find? (fun c => c.id == cid)

/-- The case-insensitive name/key/Metamask-name search of `resolveRpcUrl`. -/
def findByName (chain : String) (cs : List Chain) : Option Chain :=
  let lower := toLowerAscii chain
  cs.find? (fun c =>
    toLowerAscii c.name == lower || toLowerAscii c.key == lower ||
      toLowerAscii c.metamask.chainName == lower)

/-- `resolveRpcUrl` (part_009): an explicit RPC URL wins; otherwise the
chain identifier is resolved against the cache (numeric id first, then
case-insensitive name/key).  Note: a miss against an initialized cache
returns "not found" directly — there is no forced refresh-and-retry
here.  Returns (result, final cache state, number of refreshes). -/
def resolveRpcUrl (fr : FetchResult) (st : CacheState) (chain rpcUrl : String) :
    Except String String × CacheState × Nat :=
  if rpcUrl != "" then (.ok rpcUrl, st, 0)
  else if chain == "" then
    (.error "either \x27chain\x27 or \x27rpcUrl\x27 parameter is required", st, 0)
  else
    let afterInit : CacheState × Except String Unit × Nat :=
      if st.initialized then (st, .ok (), 0)
      else
        let (st1, r, _) := refreshChainsCache fr st
        (st1, r, 1)
    match afterInit with
    | (_, .error e, n) => (.error ("failed to load chain data: " ++ e), st, n)
    | (st1, .ok (), n) =>
      match atoi chain with
      | some cid =>
        match findById cid st1.chains with
        | some c =>
          match c.metamask.rpcUrls with
          | u :: _ => (.ok u, st1, n)
          | [] =>
            (.error ("chain " ++ toString cid ++ " has no RPC URLs configured"), st1, n)
        | none => (.error ("chain ID " ++ toString cid ++ " not found"), st1, n)
      | none =>
        match findByName chain st1.chains with
        | some c =>
          match c.metamask.rpcUrls with
          | u :: _ => (.ok u, st1, n)
          | [] =>
            (.error ("chain \x27" ++ chain ++ "\x27 has no RPC URLs configured"), st1, n)
        | none => (.error ("chain \x27" ++ chain ++ "\x27 not found"), st1, n)

/-! ## Transaction execution engine (part_008 executeTransactionRequest,
blockchain.go approve/transfer/native handlers)

Each handler is a function of its arguments and an `EthEnv` oracle
holding the outcome of every RPC primitive it may invoke, and returns
its outcome together with a `Calls` record of which primitives it
actually invoked.  Signing with a loaded key cannot fail in practice and
is modelled as always succeeding; the `sign`/`broadcast` flags record
whether `types.SignTx` / `SendTransaction` were reached. -/

structure EthEnv where
  dial : Except String Unit
  chainID : Except String Int
  gasPrice : Except String Int
  tipCap : Except String Int
  estimate : Except String Int
  nonce : Except String Int
  head : Except String (Option Int)
  simulate : Except String Unit
  balance : Except String Int
  tokenInfo : Except String (String × Int)
  nativeInfo : Except String (String × Int)
  send : Except String Unit

/-- Which client primitives a handler invoked. -/
structure Calls where
  dial : Bool := false
  chainIDQ : Bool := false
  gasPriceQ : Bool := false
  tipQ : Bool := false
  estimateQ : Bool := false
  nonceQ : Bool := false
  headQ : Bool := false
  simulateQ : Bool := false
  balanceQ : Bool := false
  tokenInfoQ : Bool := false
  nativeInfoQ : Bool := false
  sign : Bool := false
  broadcast : Bool := false
deriving DecidableEq

def noCalls : Calls := {}

/-- The fee shape of the transaction a handler built. -/
inductive TxShape where
  | legacy (gasPrice : Int)
  | dynamic (maxFee tip : Int)
deriving DecidableEq

inductive TxOut where
  | err (msg : String)
  | ok (shape : TxShape)
deriving DecidableEq

def TxOut.isErr : TxOut → Bool
  | .err _ => true
  | .ok _ => false

/-- The `chainId` field of a transaction request object: a JSON number
(Go sees `float64` and truncates to int64, assumed integral here) or a
string. -/
inductive ChainIdVal where
  | num (n : Int)
  | str (s : String)
deriving DecidableEq

/-- Chain-id conversion from the request (hex with literal "0x", else
decimal).  Go ignores a `SetString` failure, leaving the `big.Int` with
an unspecified value; that input class is modelled as an absent chain id
and no claim is settled on it. -/
def parseChainIdVal : ChainIdVal → Option Int
  | .num n => some n
  | .str v => parseHexOrDec v

/-- A transactionRequest object.  Fields the handler reads with a string
type assertion are `Option String` (Go treats a missing or non-string
field as the empty string in the modelled revision). -/
structure TxReq where
  toAddr : Option String := none
  data : Option String := none
  value : Option String := none
  fromAddr : Option String := none
  chainId : Option ChainIdVal := none
  gasPrice : Option String := none
  gasLimit : Option String := none
deriving DecidableEq

/-- The 20% gas-limit buffer.  Go computes `uint64(float64(g) * 1.2)`;
the exact float rounding can differ from `g*12/10` by one unit, and no
theorem below depends on this value. -/
def gasBuffer (g : Int) : Int := Int.ofNat (g.toNat * 12 / 10)

/-- Value-field conversion: "", "0x" and "0x0" mean zero; otherwise hex
with "0x" or decimal (an unparseable value leaves the Go big.Int
unspecified; modelled as zero, and no claim is settled on it). -/
def parseValueHex (v : String) : Int :=
  if v == "" || v == "0x" || v == "0x0" then 0
  else (parseHexOrDec v).getD 0

/-- Gas-limit parse: `strconv.ParseInt` base 16 after a literal "0x",
else base 10; a parse failure is a handler error. -/
def parseGasLimit (v : String) : Option Int :=
  if has0x v then parseInt64 isHexDigit hexDigitVal 16 (dropTwo v)
  else parseInt64 isDecDigit decDigitVal 10 v

/-- `executeTransactionRequest` (part_008): validate, resolve the
network chain id, price gas (explicit or suggested; always a legacy
transaction here), decode data, take or estimate the gas limit, read the
nonce, sign, simulate, then broadcast. -/
def executeTransactionRequest (wallet : String) (req : TxReq) (rpcUrl : String)
    (env : EthEnv) : TxOut × Calls :=
  if rpcUrl == "" then (.err "RPC URL is required", noCalls)
  else
    match env.dial with
    | .error e =>
      (.err ("failed to connect to the Ethereum client: " ++ e), { dial := true })
    | .ok () =>
      let t1 : Calls := { dial := true, chainIDQ := true }
      match env.chainID with
      | .error e => (.err ("failed to get chain ID: " ++ e), t1)
      | .ok networkChainID =>
        let tohex := req.toAddr.getD ""
        let datahex := req.data.getD ""
        let valuehex := req.value.getD ""
        let fromhex := req.fromAddr.getD ""
        if tohex == "" then
          (.err "transaction \x27to\x27 address is required in transactionRequest", t1)
        else if datahex == "" then
          (.err "transaction \x27data\x27 is required in transactionRequest", t1)
        else if fromhex != "" && !equalFold fromhex wallet then
          (.err ("transaction \x27from\x27 address (" ++ fromhex ++
            ") doesn\x27t match wallet address (" ++ wallet ++ ")"), t1)
        else
          let requestChainID := req.chainId.bind parseChainIdVal
          match requestChainID with
          | some cid =>
            if cid ≠ networkChainID then
              (.err ("chain ID in transaction (" ++ toString cid ++
                ") doesn\x27t match network chain ID (" ++ toString networkChainID ++ ")"), t1)
            else
              executeTxTail wallet req env t1 (parseValueHex valuehex) datahex
          | none => executeTxTail wallet req env t1 (parseValueHex valuehex) datahex
where
  /-- Nonce, sign, simulate, broadcast: the shared end of the pipeline
  (`gasLimitInt` is the resolved gas limit, carried for fidelity). -/
  executeTxFinish (env : EthEnv) (gasPriceInt gasLimitInt : Int) (t3 : Calls) :
      TxOut × Calls :=
    match env.nonce with
    | .error e => (.err ("failed to get nonce: " ++ e), { t3 with nonceQ := true })
    | .ok _ =>
      match env.simulate with
      | .error e =>
        (.err ("transaction would fail: " ++ e ++ ". Revert reason: " ++
          revertReasonOf e),
          { t3 with nonceQ := true, sign := true, simulateQ := true })
      | .ok () =>
        match env.send with
        | .error e =>
          (.err ("failed to send transaction: " ++ e),
            { t3 with nonceQ := true, sign := true, simulateQ := true, broadcast := true })
        | .ok () =>
          (.ok (.legacy gasPriceInt),
            { t3 with nonceQ := true, sign := true, simulateQ := true, broadcast := true })
  /-- Data decode and gas limit (verbatim or estimated with the 20%
  buffer), then the shared end of the pipeline. -/
  executeTxData (req : TxReq) (env : EthEnv) (gasPriceInt : Int) (t2 : Calls)
      (datahex : String) : TxOut × Calls :=
    if !hexDecodes (if has0x datahex then dropTwo datahex else datahex) then
      (.err "invalid transaction data", t2)
    else
      match req.gasLimit with
      | some gl =>
        if gl != "" then
          match parseGasLimit gl with
          | none => (.err ("invalid gas limit: " ++ gl), t2)
          | some v => executeTxFinish env gasPriceInt v t2
        else
          match env.estimate with
          | .error e =>
            (.err ("failed to estimate gas: " ++ e), { t2 with estimateQ := true })
          | .ok g =>
            executeTxFinish env gasPriceInt (gasBuffer g) { t2 with estimateQ := true }
      | none =>
        match env.estimate with
        | .error e =>
          (.err ("failed to estimate gas: " ++ e), { t2 with estimateQ := true })
        | .ok g =>
          executeTxFinish env gasPriceInt (gasBuffer g) { t2 with estimateQ := true }
  /-- The part after chain-id resolution: explicit or suggested gas
  price, then data decode, gas limit, nonce, sign, simulate, broadcast. -/
  executeTxTail (wallet : String) (req : TxReq) (env : EthEnv) (t1 : Calls)
      (valueInt : Int) (datahex : String) : TxOut × Calls :=
    match req.gasPrice with
    | some g =>
      if g != "" then executeTxData req env ((parseHexOrDec g).getD 0) t1 datahex
      else
        match env.gasPrice with
        | .error e =>
          (.err ("failed to suggest gas price: " ++ e), { t1 with gasPriceQ := true })
        | .ok gp => executeTxData req env gp { t1 with gasPriceQ := true } datahex
    | none =>
      match env.gasPrice with
      | .error e =>
        (.err ("failed to suggest gas price: " ++ e), { t1 with gasPriceQ := true })
      | .ok gp => executeTxData req env gp { t1 with gasPriceQ := true } datahex

/-- The EIP-1559-or-legacy fee choice shared by the approve, transfer
and native-transfer handlers: with a base fee on the latest header,
suggest a tip and set max fee to `2*baseFee + tip`; without one, use the
suggested legacy gas price. -/
def feeChoice (env : EthEnv) (baseFee : Option Int) (t : Calls) :
    Except (String × Calls) (TxShape × Calls) :=
  match baseFee with
  | some b =>
    match env.tipCap with
    | .error e =>
      .error ("failed to suggest gas tip cap: " ++ e, { t with tipQ := true })
    | .ok tip => .ok (.dynamic (2 * b + tip) tip, { t with tipQ := true })
  | none =>
    match env.gasPrice with
    | .error e =>
      .error ("failed to suggest gas price: " ++ e, { t with gasPriceQ := true })
    | .ok gp => .ok (.legacy gp, { t with gasPriceQ := true })

/-- `approveTokenHandler` (blockchain.go): validate arguments, connect,
read chain id and token metadata, simulate the packed approve call,
estimate gas, read the nonce and latest header, build a dynamic-fee or
legacy transaction by base-fee presence, sign and broadcast. -/
def approveTokenHandler (hasKey : Bool) (rpcUrl tokenAddress spenderAddress amountStr : String)
    (env : EthEnv) : TxOut × Calls :=
  if !hasKey then
    (.err "no private key loaded. Please start the server with a keystore", noCalls)
  else if rpcUrl == "" then (.err "RPC URL is required", noCalls)
  else if tokenAddress == "" then (.err "token address is required", noCalls)
  else if spenderAddress == "" then (.err "spender address is required", noCalls)
  else if amountStr == "" then (.err "amount is required", noCalls)
  else if !isHexAddress tokenAddress then
    (.err ("invalid token address format: " ++ tokenAddress), noCalls)
  else if !isHexAddress spenderAddress then
    (.err ("invalid spender address format: " ++ spenderAddress), noCalls)
  else
    match setString10 amountStr with
    | none => (.err ("invalid amount format: " ++ amountStr), noCalls)
    | some _ =>
      match env.dial with
      | .error e =>
        (.err ("failed to connect to the Ethereum client: " ++ e), { dial := true })
      | .ok () =>
        let t1 : Calls := { dial := true, chainIDQ := true }
        match env.chainID with
        | .error e => (.err ("failed to get chain ID: " ++ e), t1)
        | .ok _ =>
          let t2 : Calls := { t1 with tokenInfoQ := true }
          let t3 : Calls := { t2 with simulateQ := true }
          match env.simulate with
          | .error e =>
            (.err ("approval would fail: " ++ e ++ ". Revert reason: " ++
              revertReasonOf e), t3)
          | .ok () =>
            let t4 : Calls := { t3 with estimateQ := true }
            match env.estimate with
            | .error e => (.err ("failed to estimate gas: " ++ e), t4)
            | .ok _ =>
              let t5 : Calls := { t4 with nonceQ := true }
              match env.nonce with
              | .error e => (.err ("failed to get nonce: " ++ e), t5)
              | .ok _ =>
                let t6 : Calls := { t5 with headQ := true }
                match env.head with
                | .error e => (.err ("failed to get latest block header: " ++ e), t6)
                | .ok baseFee =>
                  match feeChoice env baseFee t6 with
                  | .error (m, tE) => (.err m, tE)
                  | .ok (shape, t7) =>
                    let t8 : Calls := { t7 with sign := true }
                    let t9 : Calls := { t8 with broadcast := true }
                    match env.send with
                    | .error e => (.err ("failed to send transaction: " ++ e), t9)
                    | .ok () => (.ok shape, t9)

/-- `transferTokenHandler` (blockchain.go): as the approve flow but with
an on-chain `balanceOf` check against the requested amount before the
transfer simulation. -/
def transferTokenHandler (hasKey : Bool) (rpcUrl tokenAddress recipientAddress amountStr : String)
    (env : EthEnv) : TxOut × Calls :=
  if !hasKey then
    (.err "no private key loaded. Please start the server with a keystore", noCalls)
  else if rpcUrl == "" then (.err "RPC URL is required", noCalls)
  else if tokenAddress == "" then (.err "token address is required", noCalls)
  else if recipientAddress == "" then (.err "recipient address (to) is required", noCalls)
  else if amountStr == "" then (.err "amount is required", noCalls)
  else if !isHexAddress tokenAddress then
    (.err ("invalid token address format: " ++ tokenAddress), noCalls)
  else if !isHexAddress recipientAddress then
    (.err ("invalid recipient address format: " ++ recipientAddress), noCalls)
  else
    match setString10 amountStr with
    | none => (.err ("invalid amount format: " ++ amountStr), noCalls)
    | some amount =>
      match env.dial with
      | .error e =>
        (.err ("failed to connect to the Ethereum client: " ++ e), { dial := true })
      | .ok () =>
        let t1 : Calls := { dial := true, chainIDQ := true }
        match env.chainID with
        | .error e => (.err ("failed to get chain ID: " ++ e), t1)
        | .ok _ =>
          let t2 : Calls := { t1 with tokenInfoQ := true }
          let t3 : Calls := { t2 with balanceQ := true }
          match env.balance with
          | .error e =>
            (.err ("failed to call balanceOf: " ++ e ++ ". Revert reason: " ++
              revertReasonOf e), t3)
          | .ok balance =>
            if balance < amount then
              (.err ("insufficient token balance: have " ++ toString balance ++
                ", need " ++ toString amount), t3)
            else
              let t4 : Calls := { t3 with simulateQ := true }
              match env.simulate with
              | .error e =>
                (.err ("transfer would fail: " ++ e ++ ". Revert reason: " ++
                  revertReasonOf e), t4)
              | .ok () =>
                let t5 : Calls := { t4 with estimateQ := true }
                match env.estimate with
                | .error e => (.err ("failed to estimate gas: " ++ e), t5)
                | .ok _ =>
                  let t6 : Calls := { t5 with nonceQ := true }
                  match env.nonce with
                  | .error e => (.err ("failed to get nonce: " ++ e), t6)
                  | .ok _ =>
                    let t7 : Calls := { t6 with headQ := true }
                    match env.head with
                    | .error e => (.err ("failed to get latest block header: " ++ e), t7)
                    | .ok baseFee =>
                      match feeChoice env baseFee t7 with
                      | .error (m, tE) => (.err m, tE)
                      | .ok (shape, t8) =>
                        let t9 : Calls := { t8 with sign := true }
                        let t10 : Calls := { t9 with broadcast := true }
                        match env.send with
                        | .error e => (.err ("failed to send transaction: " ++ e), t10)
                        | .ok () => (.ok shape, t10)

/-- `transferNativeHandler` (blockchain.go): fixed 21000 gas, a
balance ≥ amount + worst-case gas cost pre-check under the resolved fee
model, then (note the order) sign, simulate, broadcast. -/
def transferNativeHandler (hasKey : Bool) (rpcUrl recipientAddress amountStr : String)
    (env : EthEnv) : TxOut × Calls :=
  if !hasKey then
    (.err "no private key loaded. Please start the server with a keystore", noCalls)
  else if rpcUrl == "" then (.err "RPC URL is required", noCalls)
  else if recipientAddress == "" then (.err "recipient address (to) is required", noCalls)
  else if amountStr == "" then (.err "amount is required", noCalls)
  else if !isHexAddress recipientAddress then
    (.err ("invalid recipient address format: " ++ recipientAddress), noCalls)
  else
    match setString10 amountStr with
    | none => (.err ("invalid amount format: " ++ amountStr), noCalls)
    | some amount =>
      match env.dial with
      | .error e =>
        (.err ("failed to connect to the Ethereum client: " ++ e), { dial := true })
      | .ok () =>
        let t1 : Calls := { dial := true, chainIDQ := true }
        match env.chainID with
        | .error e => (.err ("failed to get chain ID: " ++ e), t1)
        | .ok _ =>
          let t2 : Calls := { t1 with nativeInfoQ := true }
          let t3 : Calls := { t2 with balanceQ := true }
          match env.balance with
          | .error e => (.err ("failed to get wallet balance: " ++ e), t3)
          | .ok balance =>
            let t4 : Calls := { t3 with headQ := true }
            match env.head with
            | .error e => (.err ("failed to get latest block header: " ++ e), t4)
            | .ok baseFee =>
              match baseFee with
              | some b =>
                match env.tipCap with
                | .error e =>
                  (.err ("failed to suggest gas tip cap: " ++ e), { t4 with tipQ := true })
                | .ok tip =>
                  nativeFinish env amount balance (.dynamic (2 * b + tip) tip)
                    ((2 * b + tip) * 21000) { t4 with tipQ := true }
              | none =>
                match env.gasPrice with
                | .error e =>
                  (.err ("failed to suggest gas price: " ++ e),
                    { t4 with gasPriceQ := true })
                | .ok gp =>
                  nativeFinish env amount balance (.legacy gp) (gp * 21000)
                    { t4 with gasPriceQ := true }
where
  /-- Balance pre-check against amount + worst-case gas cost under the
  resolved fee model (21000 gas), then nonce, sign, simulate, broadcast. -/
  nativeFinish (env : EthEnv) (amount balance : Int) (shape : TxShape)
      (gasCost : Int) (t5 : Calls) : TxOut × Calls :=
    if balance < amount + gasCost then
      (.err ("insufficient balance: have " ++ toString balance ++ ", need " ++
        toString (amount + gasCost) ++
        (match shape with
          | .dynamic _ _ => " (including max gas cost)"
          | .legacy _ => " (including gas cost)")), t5)
    else
      match env.nonce with
      | .error e => (.err ("failed to get nonce: " ++ e), { t5 with nonceQ := true })
      | .ok _ =>
        match env.simulate with
        | .error e =>
          (.err ("transfer would fail: " ++ e ++ ". Revert reason: " ++
            revertReasonOf e),
            { t5 with nonceQ := true, sign := true, simulateQ := true })
        | .ok () =>
          match env.send with
          | .error e =>
            (.err ("failed to send transaction: " ++ e),
              { t5 with nonceQ := true, sign := true, simulateQ := true, broadcast := true })
          | .ok () =>
            (.ok shape,
              { t5 with nonceQ := true, sign := true, simulateQ := true, broadcast := true })

/-! ## context.go: getQuoteHandler -/

/-- The string arguments `getQuoteHandler` extracts (`getStringArg`
yields "" for a missing or non-string argument).  The optional
allowBridges/allowExchanges arrays only feed the query string and are
not modelled. -/
structure QuoteArgs where
  fromChain : String := ""
  toChain : String := ""
  fromToken : String := ""
  toToken : String := ""
  fromAddress : String := ""
  fromAmount : String := ""
  toAddress : String := ""
  slippage : String := ""
  integrator : String := ""
  order : String := ""
deriving DecidableEq

inductive ToolRes where
  | errText (msg : String)
  | okText (body : String)
deriving DecidableEq

/-- `getQuoteHandler` (context.go): validate the six required arguments
(fromAddress with format-only `ValidateAddress`), the optional
toAddress with `ValidateRecipientAddress` and the optional slippage,
then issue one upstream GET.  Returns the result and the number of HTTP
client calls issued. -/
def getQuoteHandler (a : QuoteArgs) (get : Except String String) : ToolRes × Nat :=
  match ValidateChainID "fromChain" a.fromChain with
  | .error e => (.errText e, 0)
  | .ok () =>
  match ValidateChainID "toChain" a.toChain with
  | .error e => (.errText e, 0)
  | .ok () =>
  match ValidateTokenAddress "fromToken" a.fromToken with
  | .error e => (.errText e, 0)
  | .ok () =>
  match ValidateTokenAddress "toToken" a.toToken with
  | .error e => (.errText e, 0)
  | .ok () =>
  match ValidateAddress "fromAddress" a.fromAddress with
  | .error e => (.errText e, 0)
  | .ok () =>
  match ValidateAmount "fromAmount" a.fromAmount with
  | .error e => (.errText e, 0)
  | .ok () =>
  let recipientCheck : Except String Unit :=
    if a.toAddress != "" then ValidateRecipientAddress "toAddress" a.toAddress else .ok ()
  match recipientCheck with
  | .error e => (.errText e, 0)
  | .ok () =>
  match ValidateSlippage a.slippage with
  | .error e => (.errText e, 0)
  | .ok () =>
  match get with
  | .error e => (.errText ("error making request: " ++ e), 1)
  | .ok body => (.okText body, 1)

/-! ## blockchain.go: getNativeTokenBalanceHandler -/

structure NativeBalanceOut where
  address : String
  balance : Int
  tokenSymbol : String
  chainId : Int
  decimals : Int
deriving DecidableEq

/-- `getNativeTokenBalanceHandler` (blockchain.go): read the balance;
a chain-id failure falls back to chain id 0 and a native-token-info
failure falls back to symbol "Native Token" with 18 decimals — neither
fails the call once the balance query succeeded.  (The response renders
`chainId` with big.Int `String()`, so the 0 fallback appears as "0".) -/
def getNativeTokenBalanceHandler (rpcUrl address : String) (env : EthEnv) :
    Except String NativeBalanceOut :=
  if rpcUrl == "" || address == "" then
    .error "both rpcUrl and address parameters are required"
  else if !isHexAddress address then
    .error ("invalid Ethereum address format: " ++ address)
  else
    match env.dial with
    | .error e => .error ("failed to connect to the Ethereum client: " ++ e)
    | .ok () =>
      match env.balance with
      | .error e => .error ("failed to get balance: " ++ e)
      | .ok balance =>
        let chainId : Int :=
          match env.chainID with
          | .error _ => 0
          | .ok c => c
        let (symbol, decimals) :=
          match env.nativeInfo with
          | .error _ => ("Native Token", (18 : Int))
          | .ok sd => sd
        .ok { address := address, balance := balance, tokenSymbol := symbol,
              chainId := chainId, decimals := decimals }

/-! ## Theorems -/

/-! ### Claim C9: ValidateAmount / ValidateAmountAllowZero acceptance sets -/

theorem parseDigits_dec (cs : List Char) :
    parseDigits isDecDigit decDigitVal 10 cs =
      if cs.isEmpty then none
      else if cs.all isDecDigit then some (digitsVal cs) else none := rfl

theorem setString10_eq_some (s : String) (v : Int) :
    setString10 s = some v ↔ signedAmountLiteral s = true ∧ v = literalValue s := by
  unfold setString10 bigSetString signedAmountLiteral literalValue
  rcases hs : s.data with _ | ⟨c, cs⟩
  · simp
  · simp only [hs, parseDigits_dec]
    cases hp : c == '+'
    · cases hm : c == '-'
      · cases ha : (c :: cs).all isDecDigit
        · simp [hp, hm, ha]
        · simp [hp, hm, ha, eq_comm]
      · cases he : cs.isEmpty
        · cases ha : cs.all isDecDigit
          · simp [hp, hm, he, ha]
          · simp [hp, hm, he, ha, eq_comm]
        · simp [hp, hm, he]
    · cases he : cs.isEmpty
      · cases ha : cs.all isDecDigit
        · simp [hp, he, ha]
        · simp [hp, he, ha, eq_comm]
      · simp [hp, he]

theorem validateAmount_accept_iff (field s : String) :
    accepts (ValidateAmount field s) = true ↔
      signedAmountLiteral s = true ∧ s.length ≤ 78 ∧ 0 < literalValue s := by
  unfold ValidateAmount accepts valErr MaxAmountDigits
  rcases hz : setString10 s with _ | v
  · have hlit : ¬ (signedAmountLiteral s = true ∧ (0 : Int) = literalValue s) ∧
        ∀ w : Int, ¬ (setString10 s = some w) := by
      constructor
      · intro ⟨h1, _⟩
        rcases hw : setString10 s with _ | w
        · have := (setString10_eq_some s (literalValue s)).mpr ⟨h1, rfl⟩
          simp [hw] at this
        · simp [hw] at hz
      · intro w hw; simp [hw] at hz
    rcases hlit with ⟨h1, _⟩
    constructor
    · intro h
      by_cases hemp : s == ""
      · simp [hemp] at h
      · by_cases hlen : s.length > 78
        · simp [hemp, hlen] at h
        · simp [hemp, hlen, hz] at h
    · rintro ⟨hsig, hlen, hpos⟩
      exact absurd ((setString10_eq_some s (literalValue s)).mpr ⟨hsig, rfl⟩)
        (by simp [hz])
  · obtain ⟨hsig, hv⟩ := (setString10_eq_some s v).mp hz
    have hne : ¬ (s == "") = true := by
      intro h
      have : s.data = [] := by
        have hse : s = "" := beq_iff_eq.mp h
        simp [hse]
      simp [signedAmountLiteral, this] at hsig
    by_cases hlen : s.length > 78
    · simp only [hne, hlen, if_true, if_false, Bool.false_eq_true] <;> simp <;> omega
    · subst hv
      by_cases hneg : literalValue s < 0
      · simp [hne, hlen, hz, hneg] <;> omega
      · by_cases hzero : literalValue s == 0
        · have hz0 : literalValue s = 0 := beq_iff_eq.mp hzero
          simp [hne, hlen, hz, hneg, hzero] <;> omega
        · have hnz : ¬ literalValue s = 0 := by
            intro h; simp [h] at hzero
          simp [hne, hlen, hz, hneg, hzero, hsig] <;> omega

theorem validateAmountAllowZero_accept_iff (field s : String) :
    accepts (ValidateAmountAllowZero field s) = true ↔
      signedAmountLiteral s = true ∧ s.length ≤ 78 ∧ 0 ≤ literalValue s := by
  unfold ValidateAmountAllowZero accepts valErr MaxAmountDigits
  rcases hz : setString10 s with _ | v
  · constructor
    · intro h
      by_cases hemp : s == ""
      · simp [hemp] at h
      · by_cases hlen : s.length > 78
        · simp [hemp, hlen] at h
        · simp [hemp, hlen, hz] at h
    · rintro ⟨hsig, hlen, hpos⟩
      exact absurd ((setString10_eq_some s (literalValue s)).mpr ⟨hsig, rfl⟩)
        (by simp [hz])
  · obtain ⟨hsig, hv⟩ := (setString10_eq_some s v).mp hz
    have hne : ¬ (s == "") = true := by
      intro h
      have : s.data = [] := by
        have hse : s = "" := beq_iff_eq.mp h
        simp [hse]
      simp [signedAmountLiteral, this] at hsig
    by_cases hlen : s.length > 78
    · simp only [hne, hlen, if_true, if_false, Bool.false_eq_true] <;> simp <;> omega
    · subst hv
      by_cases hneg : literalValue s < 0
      · simp [hne, hlen, hz, hneg] <;> omega
      · simp [hne, hlen, hz, hneg, hsig] <;> omega

/-- C9 counterexample: `ValidateAmount` accepts "+1", which is not a
base-10 digit literal (the claimed acceptance set excludes it). -/
theorem C9_counterexample :
    accepts (ValidateAmount "amount" "+1") = true ∧ amountDigitLiteral "+1" = false := by
  decide

/-- C9 (amended): `ValidateAmount` accepts exactly the strings of an
optional single leading sign followed by decimal digits, of at most 78
characters (sign included), whose value is strictly positive, and
`ValidateAmountAllowZero` accepts exactly those same strings plus the
ones whose value is zero (including "-0"-style spellings). -/
theorem C9_theorem (field s : String) :
    (accepts (ValidateAmount field s) = true ↔
      signedAmountLiteral s = true ∧ s.length ≤ 78 ∧ 0 < literalValue s) ∧
    (accepts (ValidateAmountAllowZero field s) = true ↔
      signedAmountLiteral s = true ∧ s.length ≤ 78 ∧ 0 ≤ literalValue s) :=
  ⟨validateAmount_accept_iff field s, validateAmountAllowZero_accept_iff field s⟩

/-! ### Claim C8: rate limiter token invariant -/

/-- C8: the token count stays in [0, maxTokens] across any `acquire`
call (refill is clamped at maxTokens and the count never goes
negative), and an admitted acquisition consumes exactly one token: either
one of the refilled tokens (count drops by one from the post-refill
count) or, when none was available, the single token awaited (post-refill
count 0, final count 0). -/
theorem C8_theorem (r : RateLimiter) (now now2 : Nat) (cancel : Bool)
    (h0 : 0 ≤ r.tokens) (h1 : r.tokens ≤ r.maxTokens) :
    (0 ≤ ((r.acquire now now2 cancel).1).tokens ∧
      ((r.acquire now now2 cancel).1).tokens ≤ r.maxTokens) ∧
    (r.refill now).tokens ≤ r.maxTokens ∧
    ((r.acquire now now2 cancel).2 = .admitted →
      (((r.acquire now now2 cancel).1).tokens = (r.refill now).tokens - 1 ∧
          0 < (r.refill now).tokens) ∨
        (((r.acquire now now2 cancel).1).tokens = 0 ∧ (r.refill now).tokens = 0)) := by
  have ha : 0 ≤ (r.refill now).tokens ∧ (r.refill now).tokens ≤ r.maxTokens := by
    unfold RateLimiter.refill
    split
    · constructor
      · simp only [le_min_iff]
        constructor
        · have : (0 : Int) ≤ Int.ofNat ((now - r.lastRefill) / r.refillRate) :=
            Int.ofNat_nonneg _
          omega
        · omega
      · simp [min_le_right]
    · exact ⟨h0, h1⟩
  unfold RateLimiter.acquire
  split
  · rename_i hpos
    refine ⟨⟨by simp <;> omega, by simp <;> omega⟩, ha.2, fun _ => .inl ⟨by simp, hpos⟩⟩
  · rename_i hnpos
    split
    · exact ⟨⟨ha.1, ha.2⟩, ha.2, by simp⟩
    · refine ⟨⟨by simp, by simp <;> omega⟩, ha.2, fun _ => .inr ⟨by simp, by omega⟩⟩

theorem C8_witness :
    0 ≤ (((⟨1, 2, 5, 0⟩ : RateLimiter)).acquire 0 0 false).1.tokens :=
  (C8_theorem ⟨1, 2, 5, 0⟩ 0 0 false (by decide) (by decide)).1.1

/-! ### Claim C6: chain-cache refresh atomicity -/

/-- C6: `refreshChainsCache` replaces the cache contents and sets the
initialized flag, both inside the single write-lock section, exactly
when the upstream GET and the parse both succeed; any failure leaves
the previous cache state untouched, takes no lock, writes nothing, and
returns an error. -/
theorem C6_theorem (fr : FetchResult) (st : CacheState) :
    (∀ e, (refreshChainsCache fr st).2.1 = .error e →
      (refreshChainsCache fr st).1 = st ∧
        (refreshChainsCache fr st).2.2 = [.httpGet]) ∧
    ((refreshChainsCache fr st).2.1 = .ok () →
      ∃ chains, fr = .ok chains ∧
        (refreshChainsCache fr st).1 = { chains := chains, initialized := true } ∧
        (refreshChainsCache fr st).2.2 =
          [.httpGet, .lockW, .setChains, .setInit, .unlockW]) ∧
    ((∃ chains, fr = .ok chains) ↔ (refreshChainsCache fr st).2.1 = .ok ()) := by
  rcases fr with e | e | chains <;> simp [refreshChainsCache]

/-! ### Claim C5: HTTP retry policy -/

/-- C5: `doRequest` classifies network errors, 429 and 5xx as retryable,
other 4xx as terminal and sub-400 statuses as success; `doWithRetry`
makes at most 3 retries beyond the first attempt with one backoff sleep
between consecutive attempts and returns the last error on exhaustion;
a terminal classification returns immediately with no retry and no
sleep; in particular 500/500/200 yields the success body after exactly
two sleeps and a first-attempt 404 returns at once. -/
theorem C5_theorem :
    (∀ env : Nat → Attempt, ∀ b, doRequest (env 0) = .ok b →
      doWithRetry env = (.ok b, 1, 0)) ∧
    (∀ env : Nat → Attempt, ∀ e, doRequest (env 0) = .error (e, false) →
      doWithRetry env = (.error e, 1, 0)) ∧
    (∀ env : Nat → Attempt, ∀ e0 e1 e2 e3,
      doRequest (env 0) = .error (e0, true) → doRequest (env 1) = .error (e1, true) →
      doRequest (env 2) = .error (e2, true) → doRequest (env 3) = .error (e3, true) →
      doWithRetry env = (.error e3, 4, 3)) ∧
    (∀ e, doRequest (.netErr e) = .error (.network e, true)) ∧
    (∀ e, doRequest (.bodyErr e) = .error (.readBody e, true)) ∧
    (∀ ra b, doRequest (.resp 429 ra b) = .error (.rateLimited ra, true)) ∧
    (∀ status ra b, 500 ≤ status →
      doRequest (.resp status ra b) = .error (.httpFail status b, true)) ∧
    (∀ status ra b, 400 ≤ status → status < 500 → status ≠ 429 →
      doRequest (.resp status ra b) = .error (.httpFail status b, false)) ∧
    (∀ status ra b, status < 400 → doRequest (.resp status ra b) = .ok b) ∧
    (∀ env : Nat → Attempt, ∀ ra0 ra1 ra2 b0 b1 b,
      env 0 = .resp 500 ra0 b0 → env 1 = .resp 500 ra1 b1 → env 2 = .resp 200 ra2 b →
      doWithRetry env = (.ok b, 3, 2)) ∧
    (∀ env : Nat → Attempt, ∀ ra b0, env 0 = .resp 404 ra b0 →
      doWithRetry env = (.error (.httpFail 404 b0), 1, 0)) := by
  have hok : ∀ env : Nat → Attempt, ∀ i n b, doRequest (env i) = .ok b →
      retryFrom env i n = (.ok b, 1, 0) := by
    intro env i n b h
    cases n <;> simp [retryFrom, h]
  have hterm : ∀ env : Nat → Attempt, ∀ i n e, doRequest (env i) = .error (e, false) →
      retryFrom env i n = (.error e, 1, 0) := by
    intro env i n e h
    cases n <;> simp [retryFrom, h]
  have hstep : ∀ env : Nat → Attempt, ∀ i n e, doRequest (env i) = .error (e, true) →
      retryFrom env i (n + 1) =
        ((retryFrom env (i + 1) n).1, (retryFrom env (i + 1) n).2.1 + 1,
          (retryFrom env (i + 1) n).2.2 + 1) := by
    intro env i n e h
    simp [retryFrom, h]
  have hlast : ∀ env : Nat → Attempt, ∀ i e, doRequest (env i) = .error (e, true) →
      retryFrom env i 0 = (.error e, 1, 0) := by
    intro env i e h
    simp [retryFrom, h]
  refine ⟨fun env b h => hok env 0 maxRetries b h,
    fun env e h => hterm env 0 maxRetries e h,
    fun env e0 e1 e2 e3 h0 h1 h2 h3 => ?_,
    fun e => rfl, fun e => rfl, fun ra b => rfl,
    fun status ra b h5 => ?_, fun status ra b h4 h5 h429 => ?_,
    fun status ra b h4 => ?_,
    fun env ra0 ra1 ra2 b0 b1 b h0 h1 h2 => ?_,
    fun env ra b0 h0 => ?_⟩
  · show retryFrom env 0 3 = (.error e3, 4, 3)
    rw [hstep env 0 2 e0 h0, hstep env 1 1 e1 h1, hstep env 2 0 e2 h2,
      hlast env 3 e3 h3]
  · have : ¬ status == 429 := by
      intro h; have := beq_iff_eq.mp h; omega
    simp [doRequest, this, h5]
  · have h1 : ¬ status == 429 := by
      intro h; exact h429 (beq_iff_eq.mp h)
    have h2 : ¬ 500 ≤ status := by omega
    simp [doRequest, h1, h2, h4]
  · have h1 : ¬ status == 429 := by
      intro h; have := beq_iff_eq.mp h; omega
    have h2 : ¬ 500 ≤ status := by omega
    have h3 : ¬ 400 ≤ status := by omega
    simp [doRequest, h1, h2, h3]
  · have d0 : doRequest (env 0) = .error (.httpFail 500 b0, true) := by
      rw [h0]; rfl
    have d1 : doRequest (env 1) = .error (.httpFail 500 b1, true) := by
      rw [h1]; rfl
    have d2 : doRequest (env 2) = .ok b := by
      rw [h2]; rfl
    show retryFrom env 0 3 = (.ok b, 3, 2)
    rw [hstep env 0 2 _ d0, hstep env 1 1 _ d1, hok env 2 1 b d2]
  · have d0 : doRequest (env 0) = .error (.httpFail 404 b0, false) := by
      rw [h0]; rfl
    exact hterm env 0 maxRetries _ d0

/-! ### Claim C7: miss-triggered refresh-and-retry -/

/-- A one-chain directory used for concrete inputs. -/
def chainEth : Chain :=
  { id := 1, key := "eth", name := "Ethereum",
    nativeToken := { symbol := "ETH", decimals := 18 },
    nativeCurrency := { symbol := "", decimals := 0 },
    metamask := { chainName := "Ethereum Mainnet", rpcUrls := ["https://rpc.eth"] } }

/-- C7 counterexample: `resolveRpcUrl` against an initialized cache that
lacks chain id 5 reports "not found" after zero forced refreshes — the
claimed one-refresh-one-retry behaviour does not happen on the
RPC-endpoint-resolution path. -/
theorem C7_counterexample :
    (CacheState.mk [chainEth] true).initialized = true ∧
    resolveRpcUrl (.ok [chainEth]) (CacheState.mk [chainEth] true) "5" "" =
      (.error "chain ID 5 not found", CacheState.mk [chainEth] true, 0) := by
  constructor
  · rfl
  · rfl

/-- C7 (amended): only the native-token-metadata lookup retries — on an
initialized cache, `getNativeTokenInfo` on a miss forces exactly one
refresh and searches exactly once more before reporting "not found"
(or returning the record the refresh brought in), while `resolveRpcUrl`
on a miss (numeric or by-name) reports "not found" directly with zero
forced refreshes. -/
theorem C7_theorem :
    (∀ (fr : FetchResult) (st : CacheState) (chainID : Int) (chains : List Chain),
      st.initialized = true →
      findNative (toInt64 chainID) st.chains = none →
      fr = .ok chains →
      findNative (toInt64 chainID) chains = none →
      getNativeTokenInfo fr st chainID =
        (.error ("chain ID " ++ toString chainID ++ " not found in Li.Fi API"),
          { chains := chains, initialized := true }, 1)) ∧
    (∀ (fr : FetchResult) (st : CacheState) (chainID : Int) (chains : List Chain) v,
      st.initialized = true →
      findNative (toInt64 chainID) st.chains = none →
      fr = .ok chains →
      findNative (toInt64 chainID) chains = some v →
      getNativeTokenInfo fr st chainID =
        (.ok v, { chains := chains, initialized := true }, 1)) ∧
    (∀ (fr : FetchResult) (st : CacheState) (s : String) (cid : Int),
      st.initialized = true →
      atoi s = some cid →
      findById cid st.chains = none →
      resolveRpcUrl fr st s "" =
        (.error ("chain ID " ++ toString cid ++ " not found"), st, 0)) ∧
    (∀ (fr : FetchResult) (st : CacheState) (s : String),
      st.initialized = true → s ≠ "" →
      atoi s = none →
      findByName s st.chains = none →
      resolveRpcUrl fr st s "" =
        (.error ("chain \x27" ++ s ++ "\x27 not found"), st, 0)) := by
  refine ⟨?_, ?_, ?_, ?_⟩
  · intro fr st chainID chains hinit hmiss hfr hmiss2
    subst hfr
    simp [getNativeTokenInfo, hinit, hmiss, hmiss2, refreshChainsCache]
  · intro fr st chainID chains v hinit hmiss hfr hfound
    subst hfr
    simp [getNativeTokenInfo, hinit, hmiss, hfound, refreshChainsCache]
  · intro fr st s cid hinit hcid hmiss
    have hs : ¬ (s == "") = true := by
      intro h
      have := beq_iff_eq.mp h
      subst this
      simp [atoi, parseInt64, bigSetString] at hcid
    simp [resolveRpcUrl, hinit, hcid, hmiss, hs]
  · intro fr st s hne hinit hcid hmiss
    have hs : ¬ (s == "") = true := by
      intro h; exact hinit (beq_iff_eq.mp h)
    simp [resolveRpcUrl, hne, hcid, hmiss, hs]

theorem C7_witness :
    getNativeTokenInfo (.ok []) (CacheState.mk [] true) 5 =
      (.error "chain ID 5 not found in Li.Fi API", CacheState.mk [] true, 1) :=
  C7_theorem.1 (.ok []) (CacheState.mk [] true) 5 [] rfl rfl rfl rfl

/-! ### Claim C10: native-balance fallbacks -/

/-- C10: once the balance query has succeeded,
`getNativeTokenBalanceHandler` cannot fail on the chain-id or
native-token-metadata lookups: a failed chain-id query falls back to
chain id 0 (rendered "0") and failed metadata falls back to symbol
"Native Token" with 18 decimals, in every combination. -/
theorem C10_theorem (rpcUrl address : String) (env : EthEnv) (b : Int)
    (hr : rpcUrl ≠ "") (haddr : address ≠ "") (hhex : isHexAddress address = true)
    (hdial : env.dial = .ok ()) (hbal : env.balance = .ok b) :
    (∀ e1 e2, env.chainID = .error e1 → env.nativeInfo = .error e2 →
      getNativeTokenBalanceHandler rpcUrl address env =
        .ok { address := address, balance := b, tokenSymbol := "Native Token",
              chainId := 0, decimals := 18 }) ∧
    (∀ c e2, env.chainID = .ok c → env.nativeInfo = .error e2 →
      getNativeTokenBalanceHandler rpcUrl address env =
        .ok { address := address, balance := b, tokenSymbol := "Native Token",
              chainId := c, decimals := 18 }) ∧
    (∀ e1 sym dec, env.chainID = .error e1 → env.nativeInfo = .ok (sym, dec) →
      getNativeTokenBalanceHandler rpcUrl address env =
        .ok { address := address, balance := b, tokenSymbol := sym,
              chainId := 0, decimals := dec }) := by
  have hr2 : ¬ (rpcUrl == "") = true := by
    intro h; exact hr (beq_iff_eq.mp h)
  have ha2 : ¬ (address == "") = true := by
    intro h; exact haddr (beq_iff_eq.mp h)
  refine ⟨?_, ?_, ?_⟩
  · intro e1 e2 hcid hni
    simp [getNativeTokenBalanceHandler, hr2, ha2, hhex, hdial, hbal, hcid, hni]
  · intro c e2 hcid hni
    simp [getNativeTokenBalanceHandler, hr2, ha2, hhex, hdial, hbal, hcid, hni]
  · intro e1 sym dec hcid hni
    simp [getNativeTokenBalanceHandler, hr2, ha2, hhex, hdial, hbal, hcid, hni]

theorem C10_witness :
    getNativeTokenBalanceHandler "http://rpc" "0x1111111111111111111111111111111111111111"
      { dial := .ok (), chainID := .error "down", gasPrice := .ok 0, tipCap := .ok 0,
        estimate := .ok 0, nonce := .ok 0, head := .ok none, simulate := .ok (),
        balance := .ok 42, tokenInfo := .ok ("", 0), nativeInfo := .error "down",
        send := .ok () } =
      .ok { address := "0x1111111111111111111111111111111111111111", balance := 42,
            tokenSymbol := "Native Token", chainId := 0, decimals := 18 } :=
  have h := C10_theorem "http://rpc" "0x1111111111111111111111111111111111111111"
    { dial := .ok (), chainID := .error "down", gasPrice := .ok 0, tipCap := .ok 0,
      estimate := .ok 0, nonce := .ok 0, head := .ok none, simulate := .ok (),
      balance := .ok 42, tokenInfo := .ok ("", 0), nativeInfo := .error "down",
      send := .ok () } 42
    (by decide) (by decide) (by decide) rfl rfl
  h.1 "down" "down" rfl rfl

/-! ### Claim C4: zero-address fromAddress on the quote path -/

/-- A fully valid quote request whose fromAddress is the zero address. -/
def argsC4 : QuoteArgs :=
  { fromChain := "1", toChain := "10", fromToken := ZeroAddress,
    toToken := ZeroAddress, fromAddress := ZeroAddress, fromAmount := "100" }

/-- C4 counterexample: a quote request with `fromAddress` equal to the
zero address passes argument validation and the upstream HTTP call is
issued (one client call), instead of the claimed rejection with zero
calls. -/
theorem C4_counterexample :
    argsC4.fromAddress = ZeroAddress ∧
    getQuoteHandler argsC4 (.ok "BODY") = (.okText "BODY", 1) :=
  ⟨rfl, rfl⟩

/-- C4 (amended): `getQuoteHandler` validates `fromAddress` with the
format-only `ValidateAddress`, which accepts the zero address, so a
zero `fromAddress` request that passes the other validations issues the
upstream GET; the zero-address rejection applies only to the optional
`toAddress` recipient field, which is rejected before any HTTP call. -/
theorem C4_theorem (a : QuoteArgs) (get : Except String String) :
    (∀ field, accepts (ValidateAddress field ZeroAddress) = true) ∧
    (ValidateChainID "fromChain" a.fromChain = .ok () →
      ValidateChainID "toChain" a.toChain = .ok () →
      ValidateTokenAddress "fromToken" a.fromToken = .ok () →
      ValidateTokenAddress "toToken" a.toToken = .ok () →
      ValidateAddress "fromAddress" a.fromAddress = .ok () →
      ValidateAmount "fromAmount" a.fromAmount = .ok () →
      a.toAddress = "" →
      ValidateSlippage a.slippage = .ok () →
      (getQuoteHandler a get).2 = 1) ∧
    (ValidateChainID "fromChain" a.fromChain = .ok () →
      ValidateChainID "toChain" a.toChain = .ok () →
      ValidateTokenAddress "fromToken" a.fromToken = .ok () →
      ValidateTokenAddress "toToken" a.toToken = .ok () →
      ValidateAddress "fromAddress" a.fromAddress = .ok () →
      ValidateAmount "fromAmount" a.fromAmount = .ok () →
      a.toAddress ≠ "" →
      ValidateAddress "toAddress" a.toAddress = .ok () →
      equalFold a.toAddress ZeroAddress = true →
      getQuoteHandler a get =
        (.errText ("toAddress: cannot send to zero address (burn address)" ++
          " - this would permanently destroy funds"), 0)) := by
  refine ⟨fun field => ?_, ?_, ?_⟩
  · have h40 : ("0000000000000000000000000000000000000000" : String).length = 40 := by
      decide
    simp [ValidateAddress, accepts, ZeroAddress, valErr, isHexAddress,
      has0xAnyCase, dropTwo, isHexDigit, h40]
  · intro h1 h2 h3 h4 h5 h6 h7 h8
    have h7b : ¬ (a.toAddress != "") = true := by simp [h7]
    cases hget : get <;>
      simp [getQuoteHandler, h1, h2, h3, h4, h5, h6, h7b, h8, hget]
  · intro h1 h2 h3 h4 h5 h6 h7 h8 h9
    have h7b : (a.toAddress != "") = true := by simp [h7]
    simp [getQuoteHandler, ValidateRecipientAddress, valErr,
      h1, h2, h3, h4, h5, h6, h7b, h8, h9]

theorem C4_witness :
    (getQuoteHandler argsC4 (.ok "BODY")).2 = 1 :=
  (C4_theorem argsC4 (.ok "BODY")).2.1 rfl rfl rfl rfl rfl rfl rfl rfl

/-! ### Claim C2: chain-id mismatch is terminal and unsigned -/

/-- C2: whenever a transaction request specifies a chain id (numeric or
string, parseable) that differs from the chain id the RPC endpoint
reports, `executeTransactionRequest` returns an error and the signing
primitive is never invoked. -/
theorem C2_theorem (wallet : String) (req : TxReq) (rpcUrl : String) (env : EthEnv)
    (netId cid : Int) (jv : ChainIdVal)
    (hnet : env.chainID = .ok netId)
    (hreq : req.chainId = some jv)
    (hparse : parseChainIdVal jv = some cid)
    (hne : cid ≠ netId) :
    (executeTransactionRequest wallet req rpcUrl env).1.isErr = true ∧
    (executeTransactionRequest wallet req rpcUrl env).2.sign = false := by
  unfold executeTransactionRequest
  by_cases hu : (rpcUrl == "") = true
  · simp [hu, TxOut.isErr, noCalls]
  · rcases hdial : env.dial with e | u
    · simp [hu, hdial, TxOut.isErr]
    · simp only [hu, hdial, hnet, hreq, hparse, Option.bind_some]
      by_cases hto : (req.toAddr.getD "" == "") = true
      · simp [hto, TxOut.isErr]
      · by_cases hdata : (req.data.getD "" == "") = true
        · simp [hto, hdata, TxOut.isErr]
        · by_cases hfrom :
            (req.fromAddr.getD "" != "" && !equalFold (req.fromAddr.getD "") wallet) = true
          · simp [hto, hdata, hfrom, TxOut.isErr]
          · simp [hto, hdata, hfrom, hparse, hne, TxOut.isErr]

/-- Concrete input for C2: chain id 2 in the request, network reports 1. -/
def envC2 : EthEnv :=
  { dial := .ok (), chainID := .ok 1, gasPrice := .ok 5, tipCap := .ok 2,
    estimate := .ok 100, nonce := .ok 0, head := .ok (some 10), simulate := .ok (),
    balance := .ok 1000, tokenInfo := .ok ("TOK", 18), nativeInfo := .ok ("ETH", 18),
    send := .ok () }

def reqC2 : TxReq :=
  { toAddr := some "0x1111111111111111111111111111111111111111",
    data := some "0x00", chainId := some (.num 2) }

theorem C2_witness :
    (executeTransactionRequest "w" reqC2 "http://rpc" envC2).1.isErr = true ∧
    (executeTransactionRequest "w" reqC2 "http://rpc" envC2).2.sign = false :=
  C2_theorem "w" reqC2 "http://rpc" envC2 1 2 (.num 2) rfl rfl rfl (by decide)

/-! ### Claim C3: legacy vs dynamic fee selection -/

/-- Environment for the C3 counterexample: the latest header exposes a
base fee (100) yet the quote-execution path still prices a legacy
transaction at the suggested gas price (7). -/
def envC3 : EthEnv :=
  { dial := .ok (), chainID := .ok 1, gasPrice := .ok 7, tipCap := .ok 2,
    estimate := .ok 100, nonce := .ok 0, head := .ok (some 100), simulate := .ok (),
    balance := .ok 1000, tokenInfo := .ok ("TOK", 18), nativeInfo := .ok ("ETH", 18),
    send := .ok () }

def reqC3 : TxReq :=
  { toAddr := some "0x1111111111111111111111111111111111111111", data := some "0x00" }

/-- C3 counterexample: `executeTransactionRequest` with no explicit gas
price builds a legacy transaction at the suggested gas price even
though the latest block header exposes a base fee — the claimed
dynamic-fee construction does not happen on this transaction-executing
path. -/
theorem C3_counterexample :
    reqC3.gasPrice = none ∧ envC3.head = .ok (some 100) ∧
    (executeTransactionRequest "w" reqC3 "http://rpc" envC3).1 = .ok (.legacy 7) :=
  ⟨rfl, rfl, rfl⟩

theorem executeTxFinish_legacy (env : EthEnv) (gp gl : Int) (t : Calls) (sh : TxShape)
    (h : (executeTransactionRequest.executeTxFinish env gp gl t).1 = .ok sh) :
    sh = .legacy gp := by
  unfold executeTransactionRequest.executeTxFinish at h
  repeat' (first | split at h | dsimp only at h)
  all_goals
    first
    | exact TxOut.noConfusion h
    | (injection h with h2; exact h2.symm)

theorem executeTxData_legacy (req : TxReq) (env : EthEnv) (gp : Int) (t : Calls)
    (dh : String) (sh : TxShape)
    (h : (executeTransactionRequest.executeTxData req env gp t dh).1 = .ok sh) :
    sh = .legacy gp := by
  unfold executeTransactionRequest.executeTxData at h
  repeat' (first | split at h | dsimp only at h)
  all_goals
    first
    | exact TxOut.noConfusion h
    | exact executeTxFinish_legacy _ _ _ _ _ h

set_option maxHeartbeats 1000000 in
/-- C3 (amended): in the approve-token, transfer-token and
transfer-native handlers the fee shape is decided solely by the presence
of a base fee on the latest header — with a base fee the transaction is
dynamic with max fee `2*baseFee + priorityFee`, without one it is legacy
at the suggested gas price; the quote-execution path
(`executeTransactionRequest`) instead always builds a legacy
transaction, priced at the explicit gas price when supplied and at the
suggested gas price otherwise. -/
theorem C3_theorem (env : EthEnv)
    (rpcUrl tokenAddress spenderAddress recipient amountStr wallet : String)
    (req : TxReq) (hasKey : Bool) :
    (∀ b t sh, env.head = .ok (some b) → env.tipCap = .ok t →
      (approveTokenHandler hasKey rpcUrl tokenAddress spenderAddress amountStr env).1 =
        .ok sh →
      sh = .dynamic (2 * b + t) t) ∧
    (∀ g sh, env.head = .ok none → env.gasPrice = .ok g →
      (approveTokenHandler hasKey rpcUrl tokenAddress spenderAddress amountStr env).1 =
        .ok sh →
      sh = .legacy g) ∧
    (∀ b t sh, env.head = .ok (some b) → env.tipCap = .ok t →
      (transferTokenHandler hasKey rpcUrl tokenAddress recipient amountStr env).1 =
        .ok sh →
      sh = .dynamic (2 * b + t) t) ∧
    (∀ g sh, env.head = .ok none → env.gasPrice = .ok g →
      (transferTokenHandler hasKey rpcUrl tokenAddress recipient amountStr env).1 =
        .ok sh →
      sh = .legacy g) ∧
    (∀ b t sh, env.head = .ok (some b) → env.tipCap = .ok t →
      (transferNativeHandler hasKey rpcUrl recipient amountStr env).1 = .ok sh →
      sh = .dynamic (2 * b + t) t) ∧
    (∀ g sh, env.head = .ok none → env.gasPrice = .ok g →
      (transferNativeHandler hasKey rpcUrl recipient amountStr env).1 = .ok sh →
      sh = .legacy g) ∧
    (∀ g sh, req.gasPrice = none → env.gasPrice = .ok g →
      (executeTransactionRequest wallet req rpcUrl env).1 = .ok sh →
      sh = .legacy g) ∧
    (∀ gp v sh, req.gasPrice = some gp → gp ≠ "" → parseHexOrDec gp = some v →
      (executeTransactionRequest wallet req rpcUrl env).1 = .ok sh →
      sh = .legacy v) := by
  refine ⟨?_, ?_, ?_, ?_, ?_, ?_, ?_, ?_⟩
  · intro b t sh hh ht hres
    unfold approveTokenHandler at hres
    simp only [hh, feeChoice, ht] at hres
    repeat' (first | split at hres | dsimp only at hres)
    all_goals
      first
      | exact TxOut.noConfusion hres
      | (injection hres with h; exact h.symm)
      | simp_all
  · intro g sh hh hg hres
    unfold approveTokenHandler at hres
    simp only [hh, feeChoice, hg] at hres
    repeat' (first | split at hres | dsimp only at hres)
    all_goals
      first
      | exact TxOut.noConfusion hres
      | (injection hres with h; exact h.symm)
      | simp_all
  · intro b t sh hh ht hres
    unfold transferTokenHandler at hres
    simp only [hh, feeChoice, ht] at hres
    repeat' (first | split at hres | dsimp only at hres)
    all_goals
      first
      | exact TxOut.noConfusion hres
      | (injection hres with h; exact h.symm)
      | simp_all
  · intro g sh hh hg hres
    unfold transferTokenHandler at hres
    simp only [hh, feeChoice, hg] at hres
    repeat' (first | split at hres | dsimp only at hres)
    all_goals
      first
      | exact TxOut.noConfusion hres
      | (injection hres with h; exact h.symm)
      | simp_all
  · intro b t sh hh ht hres
    unfold transferNativeHandler transferNativeHandler.nativeFinish at hres
    simp only [hh, ht] at hres
    repeat' (first | split at hres | dsimp only at hres)
    all_goals
      first
      | exact TxOut.noConfusion hres
      | (injection hres with h; exact h.symm)
      | simp_all
  · intro g sh hh hg hres
    unfold transferNativeHandler transferNativeHandler.nativeFinish at hres
    simp only [hh, hg] at hres
    repeat' (first | split at hres | dsimp only at hres)
    all_goals
      first
      | exact TxOut.noConfusion hres
      | (injection hres with h; exact h.symm)
      | simp_all
  · intro g sh hgp hg hres
    unfold executeTransactionRequest executeTransactionRequest.executeTxTail at hres
    simp only [hgp, hg] at hres
    repeat' (first | split at hres | dsimp only at hres)
    all_goals
      first
      | exact TxOut.noConfusion hres
      | exact executeTxData_legacy _ _ _ _ _ _ hres
      | (have h3 := executeTxData_legacy _ _ _ _ _ _ hres; simp_all)
  · intro gp v sh hgp hne hv hres
    unfold executeTransactionRequest executeTransactionRequest.executeTxTail at hres
    have hne2 : (gp != "") = true := by simp [hne]
    simp only [hgp, hne2, hv, Option.getD_some] at hres
    repeat' (first | split at hres | dsimp only at hres)
    all_goals
      first
      | exact TxOut.noConfusion hres
      | exact executeTxData_legacy _ _ _ _ _ _ hres
      | (have h3 := executeTxData_legacy _ _ _ _ _ _ hres; simp_all)

/-- Concrete instantiation of the amended C3 statement: with a base fee
of 100 and tip 2, the approve flow prices a dynamic transaction with
max fee 202. -/
def envC3w : EthEnv :=
  { envC3 with gasPrice := .ok 9, tipCap := .ok 2, head := .ok (some 100) }

theorem C3_witness :
    TxShape.dynamic 202 2 = TxShape.dynamic (2 * 100 + 2) 2 :=
  (C3_theorem envC3w "http://rpc" "0x1111111111111111111111111111111111111111"
      "0x2222222222222222222222222222222222222222" "r" "5" "w" {} true).1
    100 2 (.dynamic 202 2) rfl rfl rfl

/-! ### Claim C1: simulation revert — abort, decode, and what was already signed -/

/-- Environment for the C1 concrete inputs: every primitive succeeds
except the read-only simulation, which reverts. -/
def envC1 : EthEnv :=
  { dial := .ok (), chainID := .ok 1, gasPrice := .ok 5, tipCap := .ok 2,
    estimate := .ok 100, nonce := .ok 0, head := .ok (some 10),
    simulate := .error "execution reverted: nope", balance := .ok 1000000000,
    tokenInfo := .ok ("TOK", 18), nativeInfo := .ok ("ETH", 18), send := .ok () }

def reqC1 : TxReq :=
  { toAddr := some "0x1111111111111111111111111111111111111111", data := some "0x00" }

/-- C1 counterexample: on the quote-execution path a reverting
simulation aborts the call (with the decoded reason) but signing has
already happened — `types.SignTx` runs before `CallContract` there, so
the operation does not abort "before any signing occurs". -/
theorem C1_counterexample :
    envC1.simulate = .error "execution reverted: nope" ∧
    (executeTransactionRequest "w" reqC1 "http://rpc" envC1).1 =
      .err "transaction would fail: execution reverted: nope. Revert reason: nope" ∧
    (executeTransactionRequest "w" reqC1 "http://rpc" envC1).2.sign = true :=
  ⟨rfl, rfl, rfl⟩

theorem executeTxFinish_calls (env : EthEnv) (gp gl : Int) (t : Calls) (e : String)
    (hsim : env.simulate = .error e) (ht : t.simulateQ = false) :
    (executeTransactionRequest.executeTxFinish env gp gl t).2.broadcast = t.broadcast ∧
    ((executeTransactionRequest.executeTxFinish env gp gl t).2.simulateQ = true →
      (executeTransactionRequest.executeTxFinish env gp gl t).1 =
        .err ("transaction would fail: " ++ e ++ ". Revert reason: " ++
          revertReasonOf e) ∧
      (executeTransactionRequest.executeTxFinish env gp gl t).2.sign = true) := by
  unfold executeTransactionRequest.executeTxFinish
  simp only [hsim]
  repeat' (first | split | dsimp only)
  all_goals simp_all

theorem executeTxData_calls (req : TxReq) (env : EthEnv) (gp : Int) (t : Calls)
    (dh e : String)
    (hsim : env.simulate = .error e) (ht : t.simulateQ = false) :
    (executeTransactionRequest.executeTxData req env gp t dh).2.broadcast = t.broadcast ∧
    ((executeTransactionRequest.executeTxData req env gp t dh).2.simulateQ = true →
      (executeTransactionRequest.executeTxData req env gp t dh).1 =
        .err ("transaction would fail: " ++ e ++ ". Revert reason: " ++
          revertReasonOf e) ∧
      (executeTransactionRequest.executeTxData req env gp t dh).2.sign = true) := by
  unfold executeTransactionRequest.executeTxData
  repeat' (first | split | dsimp only)
  all_goals
    first
    | exact executeTxFinish_calls env gp _ _ e hsim ht
    | exact executeTxFinish_calls env gp _ _ e hsim (by simp_all)
    | simp_all

theorem nativeFinish_calls (env : EthEnv) (amount balance : Int) (shape : TxShape)
    (gasCost : Int) (t : Calls) (e : String)
    (hsim : env.simulate = .error e) (ht : t.simulateQ = false) :
    (transferNativeHandler.nativeFinish env amount balance shape gasCost t).2.broadcast =
      t.broadcast ∧
    ((transferNativeHandler.nativeFinish env amount balance shape gasCost t).2.simulateQ =
        true →
      (transferNativeHandler.nativeFinish env amount balance shape gasCost t).1 =
        .err ("transfer would fail: " ++ e ++ ". Revert reason: " ++
          revertReasonOf e) ∧
      (transferNativeHandler.nativeFinish env amount balance shape gasCost t).2.sign =
        true) := by
  unfold transferNativeHandler.nativeFinish
  simp only [hsim]
  repeat' (first | split | dsimp only)
  all_goals simp_all

set_option maxHeartbeats 2000000 in
/-- C1 (amended): whenever the pre-broadcast simulation reverts, none of
the four transaction-executing operations ever broadcasts, and the
returned error carries the reason decoded from the text after
"execution reverted:" (or "Unknown reason"); approve-token and
transfer-token simulate before signing, so they abort unsigned, but
execute-quote and transfer-native sign the transaction before
simulating, so on those paths the transaction is already signed (though
still never broadcast) when the revert aborts the call. -/
theorem C1_theorem (env : EthEnv)
    (e wallet rpcUrl aTok aSpd aAmt rTok rRcp rAmt nRcp nAmt : String)
    (req : TxReq) (hasKey : Bool)
    (hsim : env.simulate = .error e) :
    ((executeTransactionRequest wallet req rpcUrl env).2.broadcast = false ∧
      ((executeTransactionRequest wallet req rpcUrl env).2.simulateQ = true →
        (executeTransactionRequest wallet req rpcUrl env).1 =
          .err ("transaction would fail: " ++ e ++ ". Revert reason: " ++
            revertReasonOf e) ∧
        (executeTransactionRequest wallet req rpcUrl env).2.sign = true)) ∧
    ((approveTokenHandler hasKey rpcUrl aTok aSpd aAmt env).2.broadcast = false ∧
      (approveTokenHandler hasKey rpcUrl aTok aSpd aAmt env).2.sign = false ∧
      ((approveTokenHandler hasKey rpcUrl aTok aSpd aAmt env).2.simulateQ = true →
        (approveTokenHandler hasKey rpcUrl aTok aSpd aAmt env).1 =
          .err ("approval would fail: " ++ e ++ ". Revert reason: " ++
            revertReasonOf e))) ∧
    ((transferTokenHandler hasKey rpcUrl rTok rRcp rAmt env).2.broadcast = false ∧
      (transferTokenHandler hasKey rpcUrl rTok rRcp rAmt env).2.sign = false ∧
      ((transferTokenHandler hasKey rpcUrl rTok rRcp rAmt env).2.simulateQ = true →
        (transferTokenHandler hasKey rpcUrl rTok rRcp rAmt env).1 =
          .err ("transfer would fail: " ++ e ++ ". Revert reason: " ++
            revertReasonOf e))) ∧
    ((transferNativeHandler hasKey rpcUrl nRcp nAmt env).2.broadcast = false ∧
      ((transferNativeHandler hasKey rpcUrl nRcp nAmt env).2.simulateQ = true →
        (transferNativeHandler hasKey rpcUrl nRcp nAmt env).1 =
          .err ("transfer would fail: " ++ e ++ ". Revert reason: " ++
            revertReasonOf e) ∧
        (transferNativeHandler hasKey rpcUrl nRcp nAmt env).2.sign = true)) := by
  refine ⟨⟨?_, ?_⟩, ⟨?_, ?_, ?_⟩, ⟨?_, ?_, ?_⟩, ⟨?_, ?_⟩⟩
  · unfold executeTransactionRequest executeTransactionRequest.executeTxTail
    simp only [hsim]
    repeat' (first | split | dsimp only)
    all_goals
      first
      | rfl
      | exact ((executeTxData_calls _ env _ _ _ e hsim rfl).1.trans rfl)
  · unfold executeTransactionRequest executeTransactionRequest.executeTxTail
    simp only [hsim]
    repeat' (first | split | dsimp only)
    all_goals
      first
      | simp [noCalls]
      | exact (executeTxData_calls _ env _ _ _ e hsim rfl).2
  · unfold approveTokenHandler
    simp only [hsim]
    repeat' (first | split | dsimp only)
    all_goals rfl
  · unfold approveTokenHandler
    simp only [hsim]
    repeat' (first | split | dsimp only)
    all_goals rfl
  · unfold approveTokenHandler
    simp only [hsim]
    repeat' (first | split | dsimp only)
    all_goals simp [noCalls]
  · unfold transferTokenHandler
    simp only [hsim]
    repeat' (first | split | dsimp only)
    all_goals rfl
  · unfold transferTokenHandler
    simp only [hsim]
    repeat' (first | split | dsimp only)
    all_goals rfl
  · unfold transferTokenHandler
    simp only [hsim]
    repeat' (first | split | dsimp only)
    all_goals simp [noCalls]
  · unfold transferNativeHandler
    simp only [hsim]
    repeat' (first | split | dsimp only)
    all_goals
      first
      | rfl
      | exact ((nativeFinish_calls env _ _ _ _ _ e hsim rfl).1.trans rfl)
  · unfold transferNativeHandler
    simp only [hsim]
    repeat' (first | split | dsimp only)
    all_goals
      first
      | simp [noCalls]
      | exact (nativeFinish_calls env _ _ _ _ _ e hsim rfl).2

theorem C1_witness :
    (approveTokenHandler true "http://rpc" "0x1111111111111111111111111111111111111111"
      "0x2222222222222222222222222222222222222222" "5" envC1).2.sign = false ∧
    (approveTokenHandler true "http://rpc" "0x1111111111111111111111111111111111111111"
      "0x2222222222222222222222222222222222222222" "5" envC1).1 =
      .err "approval would fail: execution reverted: nope. Revert reason: nope" ∧
    (transferNativeHandler true "http://rpc"
      "0x3333333333333333333333333333333333333333" "5" envC1).2.sign = true :=
  have h := C1_theorem envC1 "execution reverted: nope" "w" "http://rpc"
    "0x1111111111111111111111111111111111111111"
    "0x2222222222222222222222222222222222222222" "5"
    "0x1111111111111111111111111111111111111111"
    "0x4444444444444444444444444444444444444444" "5"
    "0x3333333333333333333333333333333333333333" "5" reqC1 true rfl
  ⟨h.2.1.2.1, h.2.1.2.2 rfl, (h.2.2.2.2 rfl).2⟩

end LifiMcp
